import Mathlib

/-!
Verification development for the `neoiq-node-foundation` observability
library.  The definitions below are a shallow embedding of the TypeScript
sources:

* `src/code-in-package/http-client.ts` (the `createHttpClient` factory:
  request/response interceptors, `axios-retry` configuration, `opossum`
  circuit-breaker construction);
* `src/code-in-package/observability-plugin.ts` (the Fastify lifecycle
  plugin: `onRequest`, `onResponse`, `onError` hooks);
* the observability index module (`init`, `logger`, AsyncLocalStorage
  context helpers).

External library behaviour that the source invokes (`axios-retry`'s retry
loop, `opossum`'s breaker state machine, the OpenTelemetry propagation
API, Fastify's hook sequencing) is embedded according to those libraries'
documented contracts, with comments marking each such point.
-/

namespace NeoIQ

-- =============================================================================
-- Outbound attempt outcomes (what one network attempt of the axios client
-- can produce: a response with a status, an error response with a status,
-- or no response at all, e.g. network failure / timeout).
-- =============================================================================

/-- An axios error that carries no response (`error.response` undefined:
network failure or timeout) or a response with a status code. -/
inductive Failure where
  | withResponse (status : Nat)
  | noResponse
deriving DecidableEq, Repr

/-- Outcome of a single network attempt. -/
inductive AttemptOutcome where
  | ok (status : Nat)
  | fail (f : Failure)
deriving DecidableEq, Repr

/-- Final result observed by the caller of an outbound call.  `circuitOpen`
is the distinguishable rejection an opossum breaker produces when fired in
the open state (error code `EOPENBREAKER`). -/
inductive CallResult where
  | ok (status : Nat)
  | fail (f : Failure)
  | circuitOpen
deriving DecidableEq, Repr

-- =============================================================================
-- Retry configuration — http-client.ts lines 312-336 (`retryConfig`)
-- =============================================================================

/-- Default retryable status codes, http-client.ts line 319:
`retry.retryStatusCodes ?? [408, 429, 500, 502, 503, 504]`. -/
def defaultRetryStatusCodes : List Nat := [408, 429, 500, 502, 503, 504]

/-- The resolved retry options of a created client. -/
structure RetryOptions where
  retries : Nat
  retryDelayBase : Nat
  retryStatusCodes : List Nat
deriving DecidableEq, Repr

/-- http-client.ts lines 314-317: `retryDelay: (retryCount) =>
baseDelay * Math.pow(2, retryCount - 1)`.  `axios-retry` invokes this with
the 1-based number of the retry about to be performed. -/
def retryDelay (baseDelay retryCount : Nat) : Nat :=
  baseDelay * 2 ^ (retryCount - 1)

/-- http-client.ts lines 318-322: `retryCondition: (error) =>
!error.response || retryStatusCodes.includes(status || 0)`. -/
def retryCondition (codes : List Nat) : Failure → Bool
  | .noResponse => true
  | .withResponse s => codes.contains s

-- =============================================================================
-- The axios-retry loop (documented contract of the `axios-retry` package
-- configured with the options above): on a rejected attempt, if the
-- current retry count is below `retries` and `retryCondition` holds, wait
-- `retryDelay(retryCount)` and re-issue the request; otherwise surface the
-- failure to the caller.
-- =============================================================================

/-- One observable effect of the outbound pipeline.  `breakerFireEff` is
what an invocation of `opossum`'s `breaker.fire` would contribute; the
pipeline of the returned client (see `clientRequest`) never emits it. -/
inductive ClientEffect where
  | networkAttempt
  | breakerFireEff (o : AttemptOutcome)
deriving DecidableEq, Repr

/-- Trace of one outbound call: number of attempts made, backoff delays
slept before each retry (in order), emitted effects, final result. -/
structure CallTrace where
  attempts : Nat
  delays : List Nat
  effects : List ClientEffect
  result : CallResult
deriving DecidableEq, Repr

/-- The attempt environment: `env i` is what the i-th network attempt
(0-based) of this call would produce. -/
def AttemptEnv := Nat → AttemptOutcome

/-- The retry loop.  `idx` is the 0-based index of the attempt about to be
made, `retryCount` the number of retries performed so far, `remaining` the
retry budget still available (`retries - retryCount`). -/
def runRetryAux (opts : RetryOptions) (env : AttemptEnv) :
    Nat → Nat → Nat → CallTrace
  | idx, _retryCount, 0 =>
    -- budget exhausted: a single attempt, its outcome surfaces directly
    match env idx with
    | .ok s => ⟨1, [], [.networkAttempt], .ok s⟩
    | .fail f => ⟨1, [], [.networkAttempt], .fail f⟩
  | idx, retryCount, remaining + 1 =>
    match env idx with
    | .ok s => ⟨1, [], [.networkAttempt], .ok s⟩
    | .fail f =>
      if retryCondition opts.retryStatusCodes f then
        let d := retryDelay opts.retryDelayBase (retryCount + 1)
        let rest := runRetryAux opts env (idx + 1) (retryCount + 1) remaining
        ⟨1 + rest.attempts, d :: rest.delays,
         .networkAttempt :: rest.effects, rest.result⟩
      else
        ⟨1, [], [.networkAttempt], .fail f⟩

/-- A full outbound call through the axios-retry pipeline. -/
def runRetry (opts : RetryOptions) (env : AttemptEnv) : CallTrace :=
  runRetryAux opts env 0 0 opts.retries

-- =============================================================================
-- Circuit breaker — opossum, constructed at http-client.ts lines 341-350.
-- The state machine below embeds opossum's documented behaviour: `fire` in
-- the open state rejects with `EOPENBREAKER` without invoking the action;
-- in the closed state it invokes the action and records the outcome, and
-- after a failure opens the circuit when at least `volumeThreshold`
-- samples were recorded and the error rate exceeds
-- `errorThresholdPercentage`; a half-open probe closes the circuit (and
-- resets statistics) on success and reopens it on failure.  (The rolling
-- statistics window and the reset timer are elided: the claims concern at
-- most one window.)
-- =============================================================================

inductive BreakerState where
  | closed
  | opened
  | halfOpen
deriving DecidableEq, Repr

structure BreakerOptions where
  timeout : Nat
  resetTimeout : Nat
  errorThresholdPercentage : Nat
  volumeThreshold : Nat
deriving DecidableEq, Repr

structure Breaker where
  opts : BreakerOptions
  state : BreakerState
  fires : Nat
  failures : Nat
deriving DecidableEq, Repr

def newBreaker (opts : BreakerOptions) : Breaker :=
  ⟨opts, .closed, 0, 0⟩

/-- What one `breaker.fire` whose action would produce outcome `o` does:
returns the result delivered to the caller and the updated breaker. -/
def breakerFire (b : Breaker) (o : AttemptOutcome) : CallResult × Breaker :=
  match b.state with
  | .opened => (.circuitOpen, b)
  | .halfOpen =>
    -- half-open: one probe allowed through
    match o with
    | .ok s => (.ok s, { b with state := .closed, fires := 0, failures := 0 })
    | .fail f => (.fail f, { b with state := .opened })
  | .closed =>
    let fires := b.fires + 1
    match o with
    | .ok s => (.ok s, { b with fires := fires })
    | .fail f =>
      let failures := b.failures + 1
      let st :=
        if fires ≥ b.opts.volumeThreshold ∧
            failures * 100 > b.opts.errorThresholdPercentage * fires then
          BreakerState.opened
        else BreakerState.closed
      (.fail f, { b with state := st, fires := fires, failures := failures })

/-- Fire the breaker once per outcome in the list, in order. -/
def breakerFireSeq (b : Breaker) (outs : List AttemptOutcome) : Breaker :=
  outs.foldl (fun b o => (breakerFire b o).2) b

/-- Replay the breaker-relevant effects of a call trace against a breaker:
only `breakerFireEff` effects touch it. -/
def breakerAfterTrace (b : Breaker) (t : CallTrace) : Breaker :=
  t.effects.foldl
    (fun b e =>
      match e with
      | .breakerFireEff o => (breakerFire b o).2
      | .networkAttempt => b)
    b

-- =============================================================================
-- createHttpClient — http-client.ts lines 169-366
-- =============================================================================

structure RetryInputOptions where
  retries : Option Nat
  retryDelay : Option Nat
  retryStatusCodes : Option (List Nat)
deriving Repr

structure CircuitBreakerInputOptions where
  enabled : Option Bool
  resetTimeout : Option Nat
  errorThresholdPercentage : Option Nat
deriving Repr

structure HttpClientOptions where
  baseURL : String
  serviceName : String
  timeout : Option Nat
  retry : RetryInputOptions
  circuitBreaker : CircuitBreakerInputOptions
deriving Repr

/-- The value `createHttpClient` builds.  Per the source, the function
returns the axios instance `client` (line 365); the opossum breaker is
constructed (lines 342-350, when `cbOptions.enabled !== false`) and has
event listeners attached, but `breaker.fire` is never invoked and the
breaker is not stored on or wired into the returned client. -/
structure CreatedClient where
  retryOptions : RetryOptions
  breaker : Option Breaker
deriving Repr

def createHttpClient (o : HttpClientOptions) : CreatedClient :=
  let timeout := o.timeout.getD 30000
  { retryOptions :=
      { retries := o.retry.retries.getD 3
        retryDelayBase := o.retry.retryDelay.getD 1000
        retryStatusCodes := o.retry.retryStatusCodes.getD defaultRetryStatusCodes }
    breaker :=
      if o.circuitBreaker.enabled = some false then none
      else
        some (newBreaker
          { timeout := timeout
            resetTimeout := o.circuitBreaker.resetTimeout.getD 30000
            errorThresholdPercentage :=
              o.circuitBreaker.errorThresholdPercentage.getD 50
            volumeThreshold := 10 }) }

/-- An outbound call through the value `createHttpClient` returns.  The
returned axios instance's request path is the interceptor chain plus the
`axios-retry` loop; no statement of the source routes it through the
breaker, so the call is exactly the retry pipeline and its effect list
contains no `breakerFireEff`. -/
def clientRequest (c : CreatedClient) (env : AttemptEnv) : CallTrace :=
  runRetry c.retryOptions env

-- =============================================================================
-- Headers and W3C trace-context propagation (OpenTelemetry API contract)
-- =============================================================================

/-- Case-normalised header map, as Node exposes it (lowercased names). -/
def Headers := List (String × String)

def lookupHeader : List (String × String) → String → Option String
  | [], _ => none
  | (k', v) :: rest, k => if k' = k then some v else lookupHeader rest k

/-- `headers.set(k, v)`: replace or add the header `k`. -/
def setHeader (hs : List (String × String)) (k v : String) :
    List (String × String) :=
  match hs with
  | [] => [(k, v)]
  | (k', v') :: rest =>
    if k' = k then (k, v) :: rest else (k', v') :: setHeader rest k v

/-- Split a character list at every dash, the shape `String.split` gives
for the W3C `traceparent` field separators. -/
def splitOnDash : List Char → List (List Char)
  | [] => [[]]
  | c :: rest =>
    let r := splitOnDash rest
    if c = '-' then [] :: r
    else
      match r with
      | h :: t => (c :: h) :: t
      | [] => [[c]]

/-- The span context a W3C `traceparent` carries. -/
structure SpanCtx where
  traceId : String
  spanId : String
deriving DecidableEq, Repr

/-- Parse a `traceparent` header value
`version "-" trace-id "-" parent-id "-" flags` (W3C trace context; the
OpenTelemetry propagator additionally checks the field lengths). -/
def parseTraceparent (s : String) : Option SpanCtx :=
  match splitOnDash s.toList with
  | [v, t, p, _f] =>
    if v = ['0', '0'] ∧ t.length = 32 ∧ p.length = 16 then
      some { traceId := String.mk t, spanId := String.mk p }
    else none
  | _ => none

/-- `propagation.extract(context.active(), request.headers)`: the W3C
propagator reads the `traceparent` header into a remote span context. -/
def extractContext (hs : List (String × String)) : Option SpanCtx :=
  (lookupHeader hs "traceparent").bind parseTraceparent

/-- `tracer.startSpan(name, opts, parentContext)`: the new span lives in
the parent's trace when the parent context holds a valid span context,
otherwise it starts a fresh trace.  A fresh span id is always assigned. -/
def startSpan (parent : Option SpanCtx) (freshTraceId freshSpanId : String) :
    SpanCtx :=
  match parent with
  | some p => { traceId := p.traceId, spanId := freshSpanId }
  | none => { traceId := freshTraceId, spanId := freshSpanId }

/-- `propagation.inject(context.active(), carrier)`: the W3C propagator
writes a `traceparent` entry when the active context holds a valid span
context, and nothing otherwise.  (`tracestate` is only written when the
active span carries one; none of the embedded code creates one.) -/
def injectCarrier (active : Option SpanCtx) : List (String × String) :=
  match active with
  | some c => [("traceparent", "00-" ++ c.traceId ++ "-" ++ c.spanId ++ "-01")]
  | none => []

-- =============================================================================
-- AsyncLocalStorage request context (observability index module)
-- =============================================================================

/-- The record the plugin stores with `als.run({correlationId, traceId,
spanId}, ...)` (observability-plugin.ts line 266) and the client reads
back with `getRequestContext()`. -/
structure AlsCtx where
  correlationId : String
  traceId : String
  spanId : String
deriving DecidableEq, Repr

/-- The ambient state the outbound request interceptor can observe: the
active OpenTelemetry context and the AsyncLocalStorage store. -/
structure ClientAmbient where
  otelActive : Option SpanCtx
  alsStore : Option AlsCtx
deriving Repr

/-- A JavaScript runtime error; the only one the embedded code could
raise is a `TypeError` from a member access on `undefined`. -/
inductive JsError where
  | typeError
deriving DecidableEq, Repr

-- =============================================================================
-- Outbound request interceptor — http-client.ts lines 205-238
-- =============================================================================

structure OutboundConfig where
  headers : List (String × String)
deriving DecidableEq, Repr

/-- The request interceptor.  Mirrors the source statement by statement:
inject the active trace context into a fresh carrier, copy `traceparent`
and `tracestate` into the config headers when present, then set
`x-request-id` from `getRequestContext()?.correlationId` when that is
truthy (the access is optional-chained, so a missing store cannot raise;
the interceptor also records a start timestamp and emits a debug log,
neither of which touches the headers). -/
def requestInterceptor (amb : ClientAmbient) (cfg : OutboundConfig) :
    Except JsError OutboundConfig :=
  let carrier := injectCarrier amb.otelActive
  let h1 :=
    match lookupHeader carrier "traceparent" with
    | some v => setHeader cfg.headers "traceparent" v
    | none => cfg.headers
  let h2 :=
    match lookupHeader carrier "tracestate" with
    | some v => setHeader h1 "tracestate" v
    | none => h1
  let h3 :=
    match amb.alsStore with
    | some ctx =>
      if ctx.correlationId ≠ "" then
        setHeader h2 "x-request-id" ctx.correlationId
      else h2
    | none => h2
  .ok { headers := h3 }

-- =============================================================================
-- Fastify observability plugin — observability-plugin.ts lines 196-377
-- =============================================================================

structure PluginOptions where
  serviceName : String
  excludeRoutes : List String
deriving Repr

/-- Plugin defaults: `excludeRoutes = ['/health', '/health/']`
(observability-plugin.ts line 197). -/
def defaultExcludeRoutes : List String := ["/health", "/health/"]

/-- `a` is a prefix of `b` (the content of `String.startsWith`, spelled
out over the character lists so it evaluates by reduction). -/
def listPrefix : List Char → List Char → Bool
  | [], _ => true
  | _ :: _, [] => false
  | a :: as, b :: bs => a = b && listPrefix as bs

/-- `excludeRoutes.some((route) => request.url.startsWith(route))`
(observability-plugin.ts line 219). -/
def urlExcluded (excludeRoutes : List String) (url : String) : Bool :=
  excludeRoutes.any fun r => listPrefix r.toList url.toList

/-- The metric instruments the plugin registers (observability-plugin.ts
lines 203-212). -/
inductive MetricInstr where
  | requestsTotal
  | requestDuration
  | requestErrors
deriving DecidableEq, Repr

/-- Observable side effects of the lifecycle hooks, in emission order. -/
inductive LifecycleEvent where
  | replyHeaderSet (name value : String)
  | spanStart
  | logReceived
  | logCompleted
  | logFailed
  | metricAdd (m : MetricInstr)
  | metricRecord (m : MetricInstr)
  | spanSetStatus
  | spanSetAttr
  | spanRecordException
  | spanEnd
deriving DecidableEq, Repr

/-- The per-request record the plugin builds in `onRequest`
(observability-plugin.ts lines 255-260) and stores on the request. -/
structure ReqCtx where
  correlationId : String
  traceId : String
  spanId : String
  startTime : Nat
deriving DecidableEq, Repr

/-- Result of the `onRequest` hook for a non-excluded request: the context
and span stored on the request object, the AsyncLocalStorage record
installed for the rest of the request, and the emitted events.  The
`fresh*` arguments stand for `randomUUID()` and the tracer's id generator.
Note that the span is only stored on the request (`request.__span`); the
hook never installs it into the active OpenTelemetry context (the source
contains no `trace.setSpan` / `context.with`). -/
structure OnRequestResult where
  ctx : ReqCtx
  span : SpanCtx
  alsInstalled : AlsCtx
  events : List LifecycleEvent
deriving Repr

/-- `onRequest` hook body for a request that is not excluded
(observability-plugin.ts lines 224-281). -/
def onRequestNonExcluded (headers : List (String × String)) (now : Nat)
    (freshUuid freshTraceId freshSpanId : String) : OnRequestResult :=
  -- 1. extract or generate correlation id (`|| randomUUID()`: the empty
  -- string is falsy)
  let correlationId :=
    match lookupHeader headers "x-request-id" with
    | some v => if v ≠ "" then v else freshUuid
    | none => freshUuid
  -- 3./4. extract the parent trace context, start the request span
  let parent := extractContext headers
  let span := startSpan parent freshTraceId freshSpanId
  -- 6./7. store the context, install the ALS record, log
  { ctx :=
      { correlationId := correlationId
        traceId := span.traceId
        spanId := span.spanId
        startTime := now }
    span := span
    alsInstalled :=
      { correlationId := correlationId
        traceId := span.traceId
        spanId := span.spanId }
    events :=
      [.replyHeaderSet "x-request-id" correlationId, .spanStart, .logReceived] }

/-- `onResponse` hook events when a context is present
(observability-plugin.ts lines 305-340); the span branch runs whenever a
span was stored.  The hook returns early with no events when
`request.__requestContext` is absent (lines 291-294). -/
def onResponseEvents (statusCode : Nat) (spanPresent : Bool) :
    List LifecycleEvent :=
  [.logCompleted, .metricAdd .requestsTotal, .metricRecord .requestDuration]
    ++ (if statusCode ≥ 400 then [.metricAdd .requestErrors] else [])
    ++ (if spanPresent then
          [.spanSetStatus, .spanSetAttr, .spanSetAttr, .spanEnd]
        else [])

/-- `onError` hook events when a context is present (observability-plugin.ts
lines 355-375): log, mark the span — the span is not ended here. -/
def onErrorEvents (spanPresent : Bool) : List LifecycleEvent :=
  [.logFailed]
    ++ (if spanPresent then [.spanSetStatus, .spanRecordException] else [])

/-- Events of the `onResponse` hook (observability-plugin.ts lines
287-341): early return with no events when `request.__requestContext` is
absent (lines 291-294). -/
def onResponseHookEvents (ctx : Option ReqCtx) (spanPresent : Bool)
    (statusCode : Nat) : List LifecycleEvent :=
  match ctx with
  | none => []
  | some _ => onResponseEvents statusCode spanPresent

/-- Events of the `onError` hook (observability-plugin.ts lines 346-376). -/
def onErrorHookEvents (ctx : Option ReqCtx) (spanPresent : Bool) :
    List LifecycleEvent :=
  match ctx with
  | none => []
  | some _ => onErrorEvents spanPresent

/-- The `onResponse` hook with JavaScript error semantics: every member
access after the `!ctx` guard is on a value the guard established (and
the `reply`/`request` arguments always exist), so the hook cannot raise
a `TypeError` even when no context was ever installed. -/
def onResponseHook (ctx : Option ReqCtx) (spanPresent : Bool)
    (statusCode : Nat) : Except JsError (List LifecycleEvent) :=
  .ok (onResponseHookEvents ctx spanPresent statusCode)

/-- The `onError` hook with JavaScript error semantics; as for
`onResponseHook`, no access can raise. -/
def onErrorHook (ctx : Option ReqCtx) (spanPresent : Bool) :
    Except JsError (List LifecycleEvent) :=
  .ok (onErrorHookEvents ctx spanPresent)

-- =============================================================================
-- A whole inbound request through the plugin, with Fastify's hook
-- sequencing: `onRequest` runs first; if the handler succeeds the reply is
-- sent and `onResponse` runs; if the handler throws, `onError` runs, the
-- error response is sent, and then `onResponse` runs as well (Fastify
-- fires `onResponse` for every request that received a response).
-- =============================================================================

structure InboundRequest where
  url : String
  method : String
  headers : List (String × String)
deriving Repr

/-- How the route handler ends: a normal reply or a thrown error (the
status is the one of the response eventually sent). -/
inductive HandlerOutcome where
  | ok (status : Nat)
  | thrown (status : Nat)
deriving DecidableEq, Repr

/-- Result of one full request lifecycle: the events emitted by the three
hooks in order, and whether the request ran to a response (every hook
path of the source reaches `done()`, so a response is always produced). -/
structure RunResult where
  events : List LifecycleEvent
  responded : Bool
deriving DecidableEq, Repr

/-- One inbound request, end to end, through the plugin's hooks. -/
def runLifecycle (opts : PluginOptions) (req : InboundRequest)
    (h : HandlerOutcome) (now : Nat)
    (freshUuid freshTraceId freshSpanId : String) : RunResult :=
  if urlExcluded opts.excludeRoutes req.url then
    -- all three hooks early-return: no span, no context, no events
    match h with
    | .ok s =>
      { events := onResponseHookEvents none false s, responded := true }
    | .thrown s =>
      { events := onErrorHookEvents none false
                    ++ onResponseHookEvents none false s,
        responded := true }
  else
    let r := onRequestNonExcluded req.headers now freshUuid freshTraceId
      freshSpanId
    match h with
    | .ok s =>
      { events := r.events ++ onResponseHookEvents (some r.ctx) true s,
        responded := true }
    | .thrown s =>
      { events := r.events ++ onErrorHookEvents (some r.ctx) true
                    ++ onResponseHookEvents (some r.ctx) true s,
        responded := true }

/-- Number of terminal lifecycle events (completed or failed) recorded in
an event trace. -/
def terminalCount (tr : List LifecycleEvent) : Nat :=
  tr.count .logCompleted + tr.count .logFailed

-- =============================================================================
-- Logger — observability index module (part of the package whose
-- `getMeter`/`als` exports the client and plugin import), logger methods:
-- `info: (obj, msg) => baseLogger?.info(obj, msg)` etc.; `baseLogger` is
-- assigned only inside `init`.
-- =============================================================================

/-- An emitted log record (level and message; the payload and injected
trace fields do not matter for the embedded claims). -/
structure LogRecord where
  level : String
  msg : String
deriving DecidableEq, Repr

/-- The module-level `baseLogger` binding: `none` before `init` ran. -/
structure LoggerModuleState where
  baseLogger : Option Unit
deriving DecidableEq, Repr

/-- The module state before `init()` has been invoked. -/
def beforeInit : LoggerModuleState := { baseLogger := none }

/-- `init` assigns `baseLogger = pino({...})`. -/
def initLoggerModule : LoggerModuleState := { baseLogger := some () }

/-- One logger method call, e.g. `logger.info(obj, msg)`.  The source body
is `baseLogger?.info(obj, msg)`: an optional-chained call, which is
`undefined` (no emission, no throw) when `baseLogger` is undefined and a
normal emission otherwise.  A non-chained call on `undefined` would be the
`typeError` branch; the source never takes it. -/
def loggerMethodCall (st : LoggerModuleState) (level msg : String) :
    Except JsError (List LogRecord) :=
  match st.baseLogger with
  | none => .ok []
  | some _ => .ok [{ level := level, msg := msg }]

deriving instance DecidableEq for Except

-- =============================================================================
-- Concrete fixtures used at the theorems' concrete inputs
-- =============================================================================

/-- A client built with entirely default options. -/
def defaultClient : CreatedClient :=
  createHttpClient
    { baseURL := "http://auth-service:3000", serviceName := "auth-service",
      timeout := none,
      retry := { retries := none, retryDelay := none, retryStatusCodes := none },
      circuitBreaker := { enabled := none, resetTimeout := none,
                          errorThresholdPercentage := none } }

/-- A client whose retry count and base delay are given explicitly. -/
def clientWithRetry (retriesN baseDelayMs : Nat) : CreatedClient :=
  createHttpClient
    { baseURL := "http://auth-service:3000", serviceName := "auth-service",
      timeout := none,
      retry := { retries := some retriesN, retryDelay := some baseDelayMs,
                 retryStatusCodes := none },
      circuitBreaker := { enabled := none, resetTimeout := none,
                          errorThresholdPercentage := none } }

/-- The breaker `createHttpClient` constructs under default options. -/
def defaultBreaker : Breaker :=
  newBreaker { timeout := 30000, resetTimeout := 30000,
               errorThresholdPercentage := 50, volumeThreshold := 10 }

/-- A target that always answers 503 Service Unavailable. -/
def env503 : AttemptEnv := fun _ => .fail (.withResponse 503)

/-- A target that always answers 404 Not Found. -/
def env404 : AttemptEnv := fun _ => .fail (.withResponse 404)

def defaultPluginOpts : PluginOptions :=
  { serviceName := "svc", excludeRoutes := defaultExcludeRoutes }

/-- A 32-hex-digit inbound trace id and a 16-hex-digit parent span id. -/
def inboundTraceId : String := "0af7651916cd43dd8448eb211c80319c"

def inboundParentSpanId : String := "b7ad6b7169203331"

/-- An inbound request carrying a W3C `traceparent` and an `x-request-id`. -/
def reqWithTrace : InboundRequest :=
  { url := "/api/reports/1", method := "GET",
    headers :=
      [("traceparent",
        "00-" ++ inboundTraceId ++ "-" ++ inboundParentSpanId ++ "-01"),
       ("x-request-id", "req-1")] }

/-- A request to an excluded (health-check) route. -/
def healthReq : InboundRequest :=
  { url := "/health", method := "GET", headers := [] }

/-- What `onRequest` produces for `reqWithTrace` (entry time 100, fresh
ids as shown). -/
def onReqFixture : OnRequestResult :=
  onRequestNonExcluded reqWithTrace.headers 100 "fresh-uuid" "fresh-trace"
    "fresh-span"

/-- Headers of an outbound call made while handling `reqWithTrace`, in a
process whose only instrumentation is this package: the plugin installed
its AsyncLocalStorage record, but — having never called `trace.setSpan` or
`context.with` — left the active OpenTelemetry context empty. -/
def outboundAfterInbound : Except JsError OutboundConfig :=
  requestInterceptor
    { otelActive := none, alsStore := some onReqFixture.alsInstalled }
    { headers := [] }

-- ---------------------------------------------------------------------------
-- Helper lemmas about the retry loop (shared across the claims below)
-- ---------------------------------------------------------------------------

theorem runRetryAux_attempts_pos (opts : RetryOptions) (env : AttemptEnv)
    (idx rc rem : Nat) : 1 ≤ (runRetryAux opts env idx rc rem).attempts := by
  cases rem with
  | zero => cases h : env idx <;> simp [runRetryAux, h]
  | succ r =>
    cases h : env idx with
    | ok s => simp [runRetryAux, h]
    | fail f =>
      by_cases hc : retryCondition opts.retryStatusCodes f = true
      · simp [runRetryAux, h, hc]
      · simp [runRetryAux, h, hc]

theorem runRetryAux_attempts_le (opts : RetryOptions) (env : AttemptEnv)
    (rem : Nat) : ∀ idx rc,
    (runRetryAux opts env idx rc rem).attempts ≤ rem + 1 := by
  induction rem with
  | zero => intro idx rc; cases h : env idx <;> simp [runRetryAux, h]
  | succ r ih =>
    intro idx rc
    cases h : env idx with
    | ok s => simp [runRetryAux, h]
    | fail f =>
      by_cases hc : retryCondition opts.retryStatusCodes f = true
      · simp only [runRetryAux, h, hc, if_true]
        have := ih (idx + 1) (rc + 1)
        omega
      · simp [runRetryAux, h, hc]

theorem runRetryAux_always_fail (opts : RetryOptions) (f : Failure)
    (hc : retryCondition opts.retryStatusCodes f = true)
    (env : AttemptEnv) (h : ∀ i, env i = .fail f) :
    ∀ rem idx rc, runRetryAux opts env idx rc rem =
      { attempts := rem + 1
        delays := (List.range rem).map
          fun k => retryDelay opts.retryDelayBase (rc + k + 1)
        effects := List.replicate (rem + 1) .networkAttempt
        result := .fail f } := by
  intro rem
  induction rem with
  | zero => intro idx rc; simp [runRetryAux, h idx]
  | succ r ih =>
    intro idx rc
    simp only [runRetryAux, h idx, hc, if_true]
    rw [ih (idx + 1) (rc + 1)]
    simp only [CallTrace.mk.injEq]
    refine ⟨by omega, ?_, by simp [List.replicate_succ], trivial⟩
    rw [List.range_succ_eq_map]
    simp only [List.map_cons, List.map_map, Nat.add_zero]
    congr 1
    refine List.map_congr_left ?_
    intro a _
    simp only [Function.comp_apply]
    congr 1
    omega

theorem runRetry_always_fail (opts : RetryOptions) (f : Failure)
    (hc : retryCondition opts.retryStatusCodes f = true)
    (env : AttemptEnv) (h : ∀ i, env i = .fail f) :
    runRetry opts env =
      { attempts := opts.retries + 1
        delays := (List.range opts.retries).map
          fun k => retryDelay opts.retryDelayBase (k + 1)
        effects := List.replicate (opts.retries + 1) .networkAttempt
        result := .fail f } := by
  rw [runRetry, runRetryAux_always_fail opts f hc env h opts.retries 0 0]
  simp

theorem runRetryAux_nonretryable (opts : RetryOptions) (f : Failure)
    (hc : retryCondition opts.retryStatusCodes f = false)
    (env : AttemptEnv) (idx rc rem : Nat) (h : env idx = .fail f) :
    runRetryAux opts env idx rc rem =
      { attempts := 1, delays := [], effects := [.networkAttempt],
        result := .fail f } := by
  cases rem <;> simp [runRetryAux, h, hc]

theorem runRetryAux_retryable_step (opts : RetryOptions) (f : Failure)
    (hc : retryCondition opts.retryStatusCodes f = true)
    (env : AttemptEnv) (idx rc rem : Nat) (h : env idx = .fail f) :
    (runRetryAux opts env idx rc (rem + 1)).attempts
      = 1 + (runRetryAux opts env (idx + 1) (rc + 1) rem).attempts := by
  simp [runRetryAux, h, hc]



/-- C1: the source documents circuit-breaker protection, and its opossum
breaker (volumeThreshold 10, errorThresholdPercentage 50) would indeed
open after ten failed fires and then reject without invoking the action —
but `createHttpClient` returns the bare axios client without ever routing
a request through `breaker.fire`, so ten consecutive failing calls leave
the breaker closed with zero recorded samples, and the next call still
performs network attempts and surfaces an ordinary failure, never a
circuit-open rejection. -/
theorem circuitBreaker_never_gates_client_calls :
    defaultClient.breaker = some defaultBreaker ∧
    defaultBreaker.opts.volumeThreshold = 10 ∧
    defaultBreaker.opts.errorThresholdPercentage = 50 ∧
    ((fun b => breakerAfterTrace b (clientRequest defaultClient env503))^[10]
        defaultBreaker = defaultBreaker) ∧
    defaultBreaker.state = .closed ∧ defaultBreaker.fires = 0 ∧
    (clientRequest defaultClient env503).effects.count .networkAttempt = 4 ∧
    (clientRequest defaultClient env503).result = .fail (.withResponse 503) ∧
    (clientRequest defaultClient env503).result ≠ .circuitOpen ∧
    (breakerFireSeq defaultBreaker
        (List.replicate 10 (.fail (.withResponse 503)))).state = .opened ∧
    (breakerFire
        (breakerFireSeq defaultBreaker
          (List.replicate 10 (.fail (.withResponse 503)))) (.ok 200)).1
      = .circuitOpen := by
  decide

/-- C2 counterexample: a client whose retry option is 3 makes four
attempts against a target that always answers 503 — one initial attempt
plus three retries — not three. -/
theorem retry_attempts_counterexample :
    (clientRequest (clientWithRetry 3 1000) env503).attempts = 4 ∧
    (clientRequest (clientWithRetry 3 1000) env503).attempts ≠ 3 := by
  decide

/-- C2 (amended): with the retry count configured to 3, a target that
always answers 503 sees exactly 4 attempts in total (the initial attempt
plus 3 retries), the caller then receives the final retryable 503 failure,
and the loop terminates — no environment can make the client exceed 4
attempts. -/
theorem retry_exhaustion (env : AttemptEnv)
    (h : ∀ i, env i = .fail (.withResponse 503)) :
    (clientRequest (clientWithRetry 3 1000) env).attempts = 4 ∧
    (clientRequest (clientWithRetry 3 1000) env).result
      = .fail (.withResponse 503) ∧
    ∀ env2 : AttemptEnv,
      (clientRequest (clientWithRetry 3 1000) env2).attempts ≤ 4 := by
  have hc : retryCondition
      (clientWithRetry 3 1000).retryOptions.retryStatusCodes
      (.withResponse 503) = true := by decide
  have hrun := runRetry_always_fail (clientWithRetry 3 1000).retryOptions
    (.withResponse 503) hc env h
  refine ⟨?_, ?_, ?_⟩
  · rw [clientRequest, hrun]
    decide
  · rw [clientRequest, hrun]
  · intro env2
    exact runRetryAux_attempts_le (clientWithRetry 3 1000).retryOptions env2 3 0 0

theorem retry_exhaustion_witness :
    (clientRequest (clientWithRetry 3 1000) env503).attempts = 4 ∧
    (clientRequest (clientWithRetry 3 1000) env503).result
      = .fail (.withResponse 503) ∧
    (clientRequest (clientWithRetry 3 1000) env503).attempts ≤ 4 := by
  have h := retry_exhaustion env503 (fun i => rfl)
  exact ⟨h.1, h.2.1, h.2.2 env503⟩

/-- C3: against an always-failing target, the delay the client sleeps
before retry attempt n (n ≥ 1) is `baseDelay * 2 ^ (n - 1)`; with a base
delay of 1000 ms and 3 retries the recorded schedule is exactly
1000 ms, 2000 ms, 4000 ms. -/
theorem backoff_schedule (retriesN baseDelayMs n : Nat) (env : AttemptEnv)
    (h : ∀ i, env i = .fail (.withResponse 503))
    (h1 : 1 ≤ n) (hn : n ≤ retriesN) :
    ((clientRequest (clientWithRetry retriesN baseDelayMs) env).delays)[n - 1]?
      = some (baseDelayMs * 2 ^ (n - 1)) ∧
    (clientRequest (clientWithRetry 3 1000) env).delays = [1000, 2000, 4000] := by
  have hc : ∀ (m b : Nat), retryCondition
      (clientWithRetry m b).retryOptions.retryStatusCodes
      (.withResponse 503) = true := by intro m b; rfl
  constructor
  · have hd : (clientRequest (clientWithRetry retriesN baseDelayMs) env).delays
        = (List.range retriesN).map fun k => retryDelay baseDelayMs (k + 1) := by
      rw [clientRequest, runRetry_always_fail
        (clientWithRetry retriesN baseDelayMs).retryOptions
        (.withResponse 503) (hc retriesN baseDelayMs) env h]
      rfl
    have hlt : n - 1 < retriesN := by omega
    rw [hd]
    simp [List.getElem?_map, List.getElem?_range, hlt, retryDelay]
  · have hrun := runRetry_always_fail (clientWithRetry 3 1000).retryOptions
      (.withResponse 503) (hc 3 1000) env h
    rw [clientRequest, hrun]
    decide

theorem backoff_schedule_witness :
    ((clientRequest (clientWithRetry 3 1000) env503).delays)[1]?
      = some (1000 * 2 ^ 1) ∧
    (clientRequest (clientWithRetry 3 1000) env503).delays
      = [1000, 2000, 4000] := by
  exact backoff_schedule 3 1000 2 env503 (fun i => rfl) (by decide) (by decide)



/-- C5: the default retryable set is exactly {408, 429, 500, 502, 503,
504}; a failed attempt satisfies the retry condition precisely when it
carries no response at all or its status lies in that set; a failure with
any other status surfaces to the caller after that one attempt, with no
retry and no backoff; and a retryable first failure does lead to a second
attempt (the default budget is 3 retries). -/
theorem retry_condition_characterized :
    defaultClient.retryOptions.retryStatusCodes = [408, 429, 500, 502, 503, 504] ∧
    (∀ f : Failure,
      retryCondition defaultClient.retryOptions.retryStatusCodes f = true ↔
        (f = .noResponse ∨ ∃ s, f = .withResponse s ∧ s ∈ defaultRetryStatusCodes)) ∧
    (∀ (env : AttemptEnv) (s : Nat), env 0 = .fail (.withResponse s) →
      s ∉ defaultRetryStatusCodes →
      clientRequest defaultClient env =
        { attempts := 1, delays := [], effects := [.networkAttempt],
          result := .fail (.withResponse s) }) ∧
    (∀ (env : AttemptEnv) (f : Failure), env 0 = .fail f →
      retryCondition defaultClient.retryOptions.retryStatusCodes f = true →
      2 ≤ (clientRequest defaultClient env).attempts) := by
  have hcodes : defaultClient.retryOptions.retryStatusCodes
      = defaultRetryStatusCodes := rfl
  refine ⟨rfl, ?_, ?_, ?_⟩
  · intro f
    cases f with
    | noResponse => simp [retryCondition]
    | withResponse s =>
      rw [hcodes]
      simp [retryCondition, defaultRetryStatusCodes]
  · intro env s h0 hmem
    have hc : retryCondition defaultClient.retryOptions.retryStatusCodes
        (.withResponse s) = false := by
      rw [hcodes]
      simp only [retryCondition, Bool.eq_false_iff, ne_eq, List.elem_iff]
      exact hmem
    exact runRetryAux_nonretryable defaultClient.retryOptions
      (.withResponse s) hc env 0 0 defaultClient.retryOptions.retries h0
  · intro env f h0 hc
    show 2 ≤ (runRetryAux defaultClient.retryOptions env 0 0 (2 + 1)).attempts
    rw [runRetryAux_retryable_step defaultClient.retryOptions f hc env 0 0 2 h0]
    have := runRetryAux_attempts_pos defaultClient.retryOptions env (0 + 1) (0 + 1) 2
    omega

/-- C4 at its concrete input: the plugin does extract the inbound trace id
and starts a span continuing it, and it installs the correlation id in
AsyncLocalStorage; but because it never installs that span into the active
OpenTelemetry context, an outbound call made while handling the request
(in a process with no other instrumentation) carries `x-request-id: req-1`
and NO `traceparent` header at all. -/
theorem trace_propagation_broken :
    extractContext reqWithTrace.headers
      = some { traceId := inboundTraceId, spanId := inboundParentSpanId } ∧
    onReqFixture.span.traceId = inboundTraceId ∧
    onReqFixture.alsInstalled.correlationId = "req-1" ∧
    outboundAfterInbound = .ok { headers := [("x-request-id", "req-1")] } ∧
    outboundAfterInbound.map (fun c => lookupHeader c.headers "x-request-id")
      = .ok (some "req-1") ∧
    outboundAfterInbound.map (fun c => lookupHeader c.headers "traceparent")
      = .ok none := by
  decide



theorem retry_condition_characterized_witness :
    clientRequest defaultClient env404 =
      { attempts := 1, delays := [], effects := [.networkAttempt],
        result := .fail (.withResponse 404) } ∧
    2 ≤ (clientRequest defaultClient env503).attempts :=
  ⟨retry_condition_characterized.2.2.1 env404 404 rfl (by decide),
   retry_condition_characterized.2.2.2 env503 (.withResponse 503) rfl (by decide)⟩

/-- C6 counterexample: for a non-excluded request whose handler throws
(error response 500), the plugin records BOTH terminal lifecycle events —
one `Request failed` log from the `onError` hook and one `Request
completed` log from the `onResponse` hook that Fastify runs afterwards —
so "exactly one terminal event, never both" fails; the span is still
ended exactly once. -/
theorem terminal_events_counterexample :
    ((runLifecycle defaultPluginOpts reqWithTrace (.thrown 500) 100
        "fresh-uuid" "fresh-trace" "fresh-span").events.count .logFailed,
     (runLifecycle defaultPluginOpts reqWithTrace (.thrown 500) 100
        "fresh-uuid" "fresh-trace" "fresh-span").events.count .logCompleted)
      = (1, 1) ∧
    terminalCount (runLifecycle defaultPluginOpts reqWithTrace (.thrown 500)
        100 "fresh-uuid" "fresh-trace" "fresh-span").events ≠ 1 := by
  decide

/-- C6 (amended): for every inbound request, any span opened is ended
exactly once — the error hook marks the span but does not end it, and the
response hook, which the framework runs afterwards on every replied
request, ends it once.  A successful non-excluded request records exactly
one terminal event (`completed`); a non-excluded request whose handler
throws records both a `failed` and a `completed` event; an excluded
request records no terminal event and opens no span. -/
theorem span_closure (opts : PluginOptions) (req : InboundRequest)
    (h : HandlerOutcome) (now : Nat) (u t sp : String) :
    (runLifecycle opts req h now u t sp).events.count .spanEnd
      = (runLifecycle opts req h now u t sp).events.count .spanStart ∧
    (runLifecycle opts req h now u t sp).events.count .spanEnd ≤ 1 ∧
    (urlExcluded opts.excludeRoutes req.url = true →
      terminalCount (runLifecycle opts req h now u t sp).events = 0 ∧
      (runLifecycle opts req h now u t sp).events.count .spanStart = 0) ∧
    (urlExcluded opts.excludeRoutes req.url = false →
      (runLifecycle opts req h now u t sp).events.count .spanEnd = 1 ∧
      (∀ s, h = .ok s →
        (runLifecycle opts req h now u t sp).events.count .logCompleted = 1 ∧
        (runLifecycle opts req h now u t sp).events.count .logFailed = 0) ∧
      (∀ s, h = .thrown s →
        (runLifecycle opts req h now u t sp).events.count .logCompleted = 1 ∧
        (runLifecycle opts req h now u t sp).events.count .logFailed = 1)) := by
  by_cases hex : urlExcluded opts.excludeRoutes req.url
  · cases h <;>
      simp [runLifecycle, hex, onResponseHookEvents, onErrorHookEvents,
        terminalCount]
  · cases h with
    | ok s =>
      simp only [runLifecycle, hex, if_neg, Bool.false_eq_true,
        not_false_eq_true, onResponseHookEvents, onRequestNonExcluded,
        onResponseEvents, terminalCount]
      constructor
      · by_cases hs : s ≥ 400 <;> simp [hs, List.count_append, List.count_cons]
      constructor
      · by_cases hs : s ≥ 400 <;> simp [hs, List.count_append, List.count_cons]
      constructor
      · intro hcon; cases hcon
      · intro _
        refine ⟨?_, ?_, ?_⟩
        · by_cases hs : s ≥ 400 <;>
            simp [hs, List.count_append, List.count_cons]
        · intro s2 _
          by_cases hs : s ≥ 400 <;>
            simp [hs, List.count_append, List.count_cons]
        · intro s2 hcon; cases hcon
    | thrown s =>
      simp only [runLifecycle, hex, if_neg, Bool.false_eq_true,
        not_false_eq_true, onResponseHookEvents, onErrorHookEvents,
        onRequestNonExcluded, onResponseEvents, onErrorEvents, terminalCount]
      constructor
      · by_cases hs : s ≥ 400 <;> simp [hs, List.count_append, List.count_cons]
      constructor
      · by_cases hs : s ≥ 400 <;> simp [hs, List.count_append, List.count_cons]
      constructor
      · intro hcon; cases hcon
      · intro _
        refine ⟨?_, ?_, ?_⟩
        · by_cases hs : s ≥ 400 <;>
            simp [hs, List.count_append, List.count_cons]
        · intro s2 hcon; cases hcon
        · intro s2 _
          by_cases hs : s ≥ 400 <;>
            simp [hs, List.count_append, List.count_cons]



/-- C7: a request whose path begins with one of the configured excluded
prefixes produces no span and no metric updates (its event trace is
empty), yet the request still runs to a response; and the response and
error hooks, invoked with no installed request context, return normally
instead of raising. -/
theorem excluded_routes_skipped (opts : PluginOptions) (req : InboundRequest)
    (h : HandlerOutcome) (now : Nat) (u t sp : String)
    (hex : urlExcluded opts.excludeRoutes req.url = true) :
    (runLifecycle opts req h now u t sp).events = [] ∧
    (runLifecycle opts req h now u t sp).responded = true ∧
    (∀ s, onResponseHook none false s = .ok []) ∧
    onErrorHook none false = .ok [] := by
  refine ⟨?_, ?_, fun s => rfl, rfl⟩ <;>
    cases h <;>
      simp [runLifecycle, hex, onResponseHookEvents, onErrorHookEvents]

theorem excluded_routes_skipped_witness :
    (runLifecycle defaultPluginOpts healthReq (.ok 200) 100
        "fresh-uuid" "fresh-trace" "fresh-span").events = [] ∧
    (runLifecycle defaultPluginOpts healthReq (.ok 200) 100
        "fresh-uuid" "fresh-trace" "fresh-span").responded = true ∧
    (∀ s, onResponseHook none false s = .ok []) ∧
    onErrorHook none false = .ok [] :=
  excluded_routes_skipped defaultPluginOpts healthReq (.ok 200) 100
    "fresh-uuid" "fresh-trace" "fresh-span" (by decide)

/-- C8: within the response hook of a non-excluded completed request, the
completion log and the request-counter and duration-histogram updates all
happen strictly before the span is ended: the hook's event list is some
prefix containing them, followed by the single `spanEnd`, and the full
lifecycle trace of such a request is exactly the request-hook events
followed by that response-hook list. -/
theorem metrics_before_span_end (s : Nat) (opts : PluginOptions)
    (req : InboundRequest) (now : Nat) (u t sp : String)
    (hex : urlExcluded opts.excludeRoutes req.url = false) :
    (∃ pre, onResponseEvents s true = pre ++ [.spanEnd] ∧
      .logCompleted ∈ pre ∧ .metricAdd .requestsTotal ∈ pre ∧
      .metricRecord .requestDuration ∈ pre ∧ .spanEnd ∉ pre) ∧
    (runLifecycle opts req (.ok s) now u t sp).events
      = (onRequestNonExcluded req.headers now u t sp).events
          ++ onResponseEvents s true := by
  constructor
  · by_cases hs : s ≥ 400
    · refine ⟨[.logCompleted, .metricAdd .requestsTotal,
        .metricRecord .requestDuration, .metricAdd .requestErrors,
        .spanSetStatus, .spanSetAttr, .spanSetAttr], ?_, by decide, by decide,
        by decide, by decide⟩
      simp [onResponseEvents, hs]
    · refine ⟨[.logCompleted, .metricAdd .requestsTotal,
        .metricRecord .requestDuration,
        .spanSetStatus, .spanSetAttr, .spanSetAttr], ?_, by decide, by decide,
        by decide, by decide⟩
      simp [onResponseEvents, hs]
  · simp [runLifecycle, hex, onResponseHookEvents]

theorem metrics_before_span_end_witness :
    (∃ pre, onResponseEvents 200 true = pre ++ [.spanEnd] ∧
      .logCompleted ∈ pre ∧ .metricAdd .requestsTotal ∈ pre ∧
      .metricRecord .requestDuration ∈ pre ∧ .spanEnd ∉ pre) ∧
    (runLifecycle defaultPluginOpts reqWithTrace (.ok 200) 100
        "fresh-uuid" "fresh-trace" "fresh-span").events
      = (onRequestNonExcluded reqWithTrace.headers 100
            "fresh-uuid" "fresh-trace" "fresh-span").events
          ++ onResponseEvents 200 true :=
  metrics_before_span_end 200 defaultPluginOpts reqWithTrace 100
    "fresh-uuid" "fresh-trace" "fresh-span" (by decide)

/-- C9: an outbound call made while no request context is active — no
active OpenTelemetry span, no AsyncLocalStorage record — passes through
the request interceptor unchanged: no `traceparent`, `tracestate` or
`x-request-id` header is added, and the interceptor returns normally (the
context reads are optional-chained, so the missing context cannot raise). -/
theorem missing_context_not_an_error (cfg : OutboundConfig) :
    requestInterceptor { otelActive := none, alsStore := none } cfg
      = .ok cfg := by
  rfl

/-- C10: a logger method invoked before `init()` has run operates on an
unassigned `baseLogger` through an optional chain: it returns normally
(no `TypeError`) and emits no log record at all. -/
theorem logger_noop_before_init (level msg : String) :
    loggerMethodCall beforeInit level msg = .ok [] := by
  rfl

end NeoIQ
